import Mathlib

/-!
Verification of the swap-orchestration engine of the `movement` bridge
subsystem, a shallow embedding of
`protocol-units/bridge/shared/src/bridge_service.rs` (`BridgeService` and its
`Stream::poll_next` implementation).

The `poll_next` body is embedded directly from the source.  The per-direction
`ActiveSwapMap` tracker and the event vocabulary live in modules
(`active_swap.rs`, `events.rs`, `bridge_monitoring.rs`) that are not part of
the source tree available here; those parts are modelled from the design
specification (sections 3, 4.1 and 6) and carry a `Modelled from the spec:`
note in their doc comments.

Machine-level concerns (async wakers, pinning) are abstracted: one scheduling
turn of `poll_next` is a pure function from the service state and the poll
results of the four underlying sources to a poll result, an updated state and
the list of contract calls dispatched during the turn.  A Rust `todo!()`
(process panic) is modelled as `Except.error`.
-/

namespace Bridge

/-- Modelled from the spec: the swap detail record carried by an
`Initiated` event — hash-lock commitment, amount, source/destination
addresses, keyed by the transfer id (spec section 3).  Concrete address and
hash representations are abstracted to `Nat`. -/
structure BridgeTransferDetails where
  bridge_transfer_id : Nat
  initiator_address : Nat
  recipient_address : Nat
  hash_lock : Nat
  time_lock : Nat
  amount : Nat
deriving DecidableEq, Repr

/-- Modelled from the spec: detail of a counterparty `Locked` event (spec
section 6, scenario in section 8). -/
structure LockedDetails where
  bridge_transfer_id : Nat
  amount : Nat
deriving DecidableEq, Repr

/-- Modelled from the spec: detail of a counterparty `Completed` event,
carrying the revealed pre-image/secret (spec sections 4.2 and 8). -/
structure CounterpartyCompletedDetails where
  bridge_transfer_id : Nat
  secret : Nat
deriving DecidableEq, Repr

/-- Modelled from the spec: initiator-contract events of a chain's event
sequence: `Initiated(detail)`, `Completed(detail)`, `Refunded(detail)`
(spec section 6; `bridge_monitoring.rs` is not in the available tree).
`poll_next` only inspects the payload of `Initiated`, so the payloads of
`Completed` and `Refunded` are abstracted to the transfer id. -/
inductive BridgeContractInitiatorEvent
  | Initiated (details : BridgeTransferDetails)
  | Completed (id : Nat)
  | Refunded (id : Nat)
deriving DecidableEq, Repr

/-- Modelled from the spec: counterparty-contract events `Locked(detail)`,
`Completed(detail)` (spec section 6). -/
inductive BridgeContractCounterpartyEvent
  | Locked (details : LockedDetails)
  | Completed (details : CounterpartyCompletedDetails)
deriving DecidableEq, Repr

/-- A contract event of a chain's event sequence, as consumed by
`poll_next` (`blockchain_service.rs::ContractEvent`). -/
inductive ContractEvent
  | InitiatorEvent (e : BridgeContractInitiatorEvent)
  | CounterpartyEvent (e : BridgeContractCounterpartyEvent)
deriving DecidableEq, Repr

/-- The asynchronous contract calls a tracker dispatches as side effects:
the destination-chain lock call (`lock_bridge_transfer_assets`, named in the
comment at bridge_service.rs:101) and the source-chain claim call
(`complete_bridge_transfer`, named in the comment at bridge_service.rs:115). -/
inductive ContractCall
  | LockBridgeTransferAssets (details : BridgeTransferDetails)
  | CompleteBridgeTransfer (details : CounterpartyCompletedDetails)
deriving DecidableEq, Repr

/-- Modelled from the spec: status of an active swap entry
(spec section 3). -/
inductive SwapStatus
  | Locking
  | Locked
  | Completing
  | CompletedPendingRemoval
deriving DecidableEq, Repr

/-- Modelled from the spec: one active swap entry
`{transfer_id, detail, status}` (spec section 3). -/
structure ActiveSwap where
  transfer_id : Nat
  detail : BridgeTransferDetails
  status : SwapStatus
deriving DecidableEq, Repr

/-- Modelled from the spec: the per-direction in-memory registry of active
swaps (`active_swap.rs::ActiveSwapMap`, not in the available tree;
spec sections 3 and 4.1). -/
structure ActiveSwapMap where
  swaps : List ActiveSwap
deriving DecidableEq, Repr

/-- Modelled from the spec: the error of `complete_bridge_transfer` for an
untracked id (`active_swap.rs::ActiveSwapMapError`, matched at
bridge_service.rs:250). -/
inductive ActiveSwapMapError
  | NonExistingSwap
deriving DecidableEq, Repr

/-- Modelled from the spec: `already_executing(id) -> bool` — pure lookup in
the registry, no side effect (spec section 4.1). -/
def ActiveSwapMap.already_executing (m : ActiveSwapMap) (id : Nat) : Bool :=
  m.swaps.any fun entry => entry.transfer_id == id

/-- Modelled from the spec: `start_bridge_transfer(detail)` inserts a new
entry keyed by `detail.transfer_id` and asynchronously dispatches the
destination contract's lock call with the same detail (spec section 4.1).
The dispatched call is returned explicitly. -/
def ActiveSwapMap.start_bridge_transfer (m : ActiveSwapMap)
    (details : BridgeTransferDetails) : ActiveSwapMap × List ContractCall :=
  (⟨⟨details.bridge_transfer_id, details, SwapStatus.Locking⟩ :: m.swaps⟩,
   [ContractCall.LockBridgeTransferAssets details])

/-- Modelled from the spec: `complete_bridge_transfer(detail)` looks up the
entry by id; if absent it fails with `NonExistingSwap` without mutating state
or calling the chain; if present it dispatches the destination contract's
claim call using the secret carried in `detail` and removes the entry
(spec section 4.1). -/
def ActiveSwapMap.complete_bridge_transfer (m : ActiveSwapMap)
    (details : CounterpartyCompletedDetails) :
    Except ActiveSwapMapError (ActiveSwapMap × List ContractCall) :=
  if m.already_executing details.bridge_transfer_id then
    Except.ok
      (⟨m.swaps.filter fun entry => entry.transfer_id != details.bridge_transfer_id⟩,
       [ContractCall.CompleteBridgeTransfer details])
  else
    Except.error ActiveSwapMapError.NonExistingSwap

/-- Modelled from the spec: the progress events of a tracker's own lazy
sequence (`active_swap.rs::ActiveSwapEvent`, matched at
bridge_service.rs:91-119; spec section 4.1).  Error payloads are abstracted
to `Nat`. -/
inductive ActiveSwapEvent
  | BridgeAssetsLocked (bridge_transfer_id : Nat)
  | BridgeAssetsLockingError (error : Nat)
  | BridgeAssetsCompleted (bridge_transfer_id : Nat)
  | BridgeAssetsCompletingError (error : Nat)
deriving DecidableEq, Repr

/-- Modelled from the spec: initiator-side warnings of the unified output
vocabulary (`events.rs::IWarn`, constructed at bridge_service.rs:174). -/
inductive IWarn
  | AlreadyPresent (details : BridgeTransferDetails)
deriving DecidableEq, Repr

/-- Modelled from the spec: initiator-side unified output events
(`events.rs::IEvent`, constructed at bridge_service.rs:173-188). -/
inductive IEvent
  | ContractEvent (e : BridgeContractInitiatorEvent)
  | Warn (w : IWarn)
deriving DecidableEq, Repr

/-- Modelled from the spec: counterparty-side warnings
(`events.rs::CWarn`, constructed at bridge_service.rs:252). -/
inductive CWarn
  | CannotCompleteUnexistingSwap (details : CounterpartyCompletedDetails)
deriving DecidableEq, Repr

/-- Modelled from the spec: counterparty-side unified output events
(`events.rs::CEvent`, constructed at bridge_service.rs:221-251). -/
inductive CEvent
  | ContractEvent (e : BridgeContractCounterpartyEvent)
  | Warn (w : CWarn)
deriving DecidableEq, Repr

/-- Modelled from the spec: the unified output event of the orchestrator,
tagged by originating chain and role (`events.rs::Event`; the source only
ever constructs the `B1I` and `B2C` variants). -/
inductive Event
  | B1I (e : IEvent)
  | B2C (e : CEvent)
deriving DecidableEq, Repr

/-- The result of polling one underlying sequence on a turn:
`Ready (some e)` (an event), `Ready none` (the sequence is exhausted) or
`Pending` (nothing ready this turn), mirroring Rust's
`Poll<Option<Item>>`. -/
inductive Poll (α : Type)
  | Ready (item : Option α)
  | Pending
deriving DecidableEq, Repr

/-- The mutable state of `BridgeService` that `poll_next` touches: the two
per-direction trackers (bridge_service.rs:30-31).  The blockchain handles
themselves are pure event sources here. -/
structure BridgeServiceState where
  active_swaps_b1_to_b2 : ActiveSwapMap
  active_swaps_b2_to_b1 : ActiveSwapMap
deriving DecidableEq, Repr

/-- What the four underlying sequences report on one scheduling turn, in the
order `poll_next` examines them (bridge_service.rs:87, 131, 158, 206). -/
structure TurnInputs where
  swaps_b1_to_b2 : Poll ActiveSwapEvent
  swaps_b2_to_b1 : Poll ActiveSwapEvent
  blockchain_1 : Poll ContractEvent
  blockchain_2 : Poll ContractEvent
deriving DecidableEq, Repr

/-- The observable outcome of one `poll_next` turn: the poll result returned
to the consumer, the service state after the turn, and the contract calls
dispatched through the trackers during the turn. -/
abbrev TurnResult := Poll Event × BridgeServiceState × List ContractCall

/-- Handling of the A-to-B tracker's progress event
(bridge_service.rs:87-128).  Every arm only logs (`trace!`/`warn!`) and
falls through; no arm returns, mutates state or dispatches a call. -/
def handle_swaps_b1_to_b2 (p : Poll ActiveSwapEvent) : Except String Unit :=
  match p with
  | Poll.Ready (some event) =>
    match event with
    | ActiveSwapEvent.BridgeAssetsLocked _ => Except.ok ()
    | ActiveSwapEvent.BridgeAssetsLockingError _ => Except.ok ()
    | ActiveSwapEvent.BridgeAssetsCompleted _ => Except.ok ()
    | ActiveSwapEvent.BridgeAssetsCompletingError _ => Except.ok ()
  | Poll.Ready none => Except.ok ()
  | Poll.Pending => Except.ok ()

/-- Handling of the B-to-A tracker's progress event
(bridge_service.rs:131-154).  `Locked`/`LockingError` only log;
`Completed`/`CompletingError` are `todo!()` — a process panic, modelled as
`Except.error`. -/
def handle_swaps_b2_to_b1 (p : Poll ActiveSwapEvent) : Except String Unit :=
  match p with
  | Poll.Ready (some event) =>
    match event with
    | ActiveSwapEvent.BridgeAssetsLocked _ => Except.ok ()
    | ActiveSwapEvent.BridgeAssetsLockingError _ => Except.ok ()
    | ActiveSwapEvent.BridgeAssetsCompleted _ =>
      Except.error "todo: B2 to B1 BridgeAssetsCompleted"
    | ActiveSwapEvent.BridgeAssetsCompletingError _ =>
      Except.error "todo: B2 to B1 BridgeAssetsCompletingError"
  | Poll.Ready none => Except.ok ()
  | Poll.Pending => Except.ok ()

/-- Handling of the chain-1 event (bridge_service.rs:158-204).  Returns
`some` when the arm early-returns an output event (with the updated state and
dispatched calls), `none` when it falls through, and an error on the
`Refunded` `todo!()` panic (bridge_service.rs:190). -/
def handle_blockchain_1 (s : BridgeServiceState) (p : Poll ContractEvent) :
    Except String (Option (Event × BridgeServiceState × List ContractCall)) :=
  match p with
  | Poll.Ready (some (ContractEvent.InitiatorEvent initiator_event)) =>
    match initiator_event with
    | BridgeContractInitiatorEvent.Initiated details =>
      if s.active_swaps_b1_to_b2.already_executing details.bridge_transfer_id then
        Except.ok (some
          (Event.B1I (IEvent.Warn (IWarn.AlreadyPresent details)), s, []))
      else
        let (m, calls) := s.active_swaps_b1_to_b2.start_bridge_transfer details
        Except.ok (some
          (Event.B1I (IEvent.ContractEvent
            (BridgeContractInitiatorEvent.Initiated details)),
           { s with active_swaps_b1_to_b2 := m }, calls))
    | BridgeContractInitiatorEvent.Completed id =>
      Except.ok (some
        (Event.B1I (IEvent.ContractEvent
          (BridgeContractInitiatorEvent.Completed id)), s, []))
    | BridgeContractInitiatorEvent.Refunded _ =>
      Except.error "todo: blockchain 1 initiator Refunded"
  | Poll.Ready (some (ContractEvent.CounterpartyEvent _)) => Except.ok none
  | Poll.Ready none => Except.ok none
  | Poll.Pending => Except.ok none

/-- Handling of the chain-2 event (bridge_service.rs:206-271).  Initiator
events are traced only (fall through); counterparty `Locked` is forwarded
as-is; counterparty `Completed` calls `complete_bridge_transfer` on the
A-to-B tracker and escalates `NonExistingSwap` to a critical
`CannotCompleteUnexistingSwap` warning. -/
def handle_blockchain_2 (s : BridgeServiceState) (p : Poll ContractEvent) :
    Except String (Option (Event × BridgeServiceState × List ContractCall)) :=
  match p with
  | Poll.Ready (some (ContractEvent.InitiatorEvent _)) => Except.ok none
  | Poll.Ready (some (ContractEvent.CounterpartyEvent event)) =>
    match event with
    | BridgeContractCounterpartyEvent.Locked details =>
      Except.ok (some
        (Event.B2C (CEvent.ContractEvent
          (BridgeContractCounterpartyEvent.Locked details)), s, []))
    | BridgeContractCounterpartyEvent.Completed details =>
      match s.active_swaps_b1_to_b2.complete_bridge_transfer details with
      | Except.ok (m, calls) =>
        Except.ok (some
          (Event.B2C (CEvent.ContractEvent
            (BridgeContractCounterpartyEvent.Completed details)),
           { s with active_swaps_b1_to_b2 := m }, calls))
      | Except.error ActiveSwapMapError.NonExistingSwap =>
        Except.ok (some
          (Event.B2C (CEvent.Warn
            (CWarn.CannotCompleteUnexistingSwap details)), s, []))
  | Poll.Ready none => Except.ok none
  | Poll.Pending => Except.ok none

/-- One scheduling turn of `BridgeService::poll_next`
(bridge_service.rs:81-274): the four sources are examined in the fixed order
A-to-B tracker progress, B-to-A tracker progress, chain-1 events, chain-2
events; the first chain arm that produces an output event ends the turn;
if nothing produced output the turn ends with `Pending`
(bridge_service.rs:273).  A `todo!()` panic is an `Except.error`. -/
def poll_next (s : BridgeServiceState) (inp : TurnInputs) :
    Except String TurnResult :=
  match handle_swaps_b1_to_b2 inp.swaps_b1_to_b2 with
  | Except.error e => Except.error e
  | Except.ok () =>
    match handle_swaps_b2_to_b1 inp.swaps_b2_to_b1 with
    | Except.error e => Except.error e
    | Except.ok () =>
      match handle_blockchain_1 s inp.blockchain_1 with
      | Except.error e => Except.error e
      | Except.ok (some (ev, s1, calls)) =>
        Except.ok (Poll.Ready (some ev), s1, calls)
      | Except.ok none =>
        match handle_blockchain_2 s inp.blockchain_2 with
        | Except.error e => Except.error e
        | Except.ok (some (ev, s2, calls)) =>
          Except.ok (Poll.Ready (some ev), s2, calls)
        | Except.ok none => Except.ok (Poll.Pending, s, [])

/-- Holds when the B-to-A tracker's poll result does not hit one of the two
`todo!()` placeholder arms (bridge_service.rs:144-145). -/
def swaps_b2_to_b1_todo_free (p : Poll ActiveSwapEvent) : Bool :=
  match p with
  | Poll.Ready (some (ActiveSwapEvent.BridgeAssetsCompleted _)) => false
  | Poll.Ready (some (ActiveSwapEvent.BridgeAssetsCompletingError _)) => false
  | _ => true

/-- Holds when the chain-1 poll result makes `poll_next` fall through to the
chain-2 source: anything but an initiator event (counterparty events on
chain 1 are traced only, bridge_service.rs:193-195). -/
def blockchain_1_falls_through (p : Poll ContractEvent) : Bool :=
  match p with
  | Poll.Ready (some (ContractEvent.InitiatorEvent _)) => false
  | _ => true

/-- Every arm of the A-to-B tracker progress handling only logs. -/
lemma handle_swaps_b1_to_b2_eq_ok (p : Poll ActiveSwapEvent) :
    handle_swaps_b1_to_b2 p = Except.ok () := by
  cases p with
  | Ready item =>
    cases item with
    | none => rfl
    | some event => cases event <;> rfl
  | Pending => rfl

/-- Away from the two `todo!()` arms, the B-to-A tracker progress handling
only logs. -/
lemma handle_swaps_b2_to_b1_eq_ok (p : Poll ActiveSwapEvent)
    (h : swaps_b2_to_b1_todo_free p = true) :
    handle_swaps_b2_to_b1 p = Except.ok () := by
  cases p with
  | Ready item =>
    cases item with
    | none => rfl
    | some event =>
      cases event <;> simp [swaps_b2_to_b1_todo_free] at h <;> rfl
  | Pending => rfl

/-- A chain-1 poll result that is not an initiator event falls through. -/
lemma handle_blockchain_1_eq_none (s : BridgeServiceState)
    (p : Poll ContractEvent) (h : blockchain_1_falls_through p = true) :
    handle_blockchain_1 s p = Except.ok none := by
  cases p with
  | Ready item =>
    cases item with
    | none => rfl
    | some event =>
      cases event with
      | InitiatorEvent e => simp [blockchain_1_falls_through] at h
      | CounterpartyEvent e => rfl
  | Pending => rfl

/-- Concrete swap detail used by the evaluation witnesses. -/
def sampleDetails : BridgeTransferDetails :=
  ⟨1, 10, 20, 30, 40, 100⟩

/-- Concrete service state whose A-to-B tracker holds exactly the sample
swap. -/
def sampleState : BridgeServiceState :=
  ⟨⟨[⟨1, sampleDetails, SwapStatus.Locking⟩]⟩, ⟨[]⟩⟩

/-- Concrete service state with both registries empty. -/
def emptyState : BridgeServiceState :=
  ⟨⟨[]⟩, ⟨[]⟩⟩

/-- C1: a chain-1 `Initiated` event whose id is already tracked in the
A-to-B tracker yields exactly one `AlreadyPresent` warning carrying the
event's details, dispatches no contract call, and leaves both registries
(hence the single entry for that id) unchanged. -/
theorem pollNext_duplicate_initiated_already_present
    (s : BridgeServiceState) (inp : TurnInputs) (d : BridgeTransferDetails)
    (htodo : swaps_b2_to_b1_todo_free inp.swaps_b2_to_b1 = true)
    (hc1 : inp.blockchain_1 = Poll.Ready (some (ContractEvent.InitiatorEvent
      (BridgeContractInitiatorEvent.Initiated d))))
    (hdup : s.active_swaps_b1_to_b2.already_executing d.bridge_transfer_id = true) :
    poll_next s inp = Except.ok
      (Poll.Ready (some (Event.B1I (IEvent.Warn (IWarn.AlreadyPresent d)))), s, []) := by
  simp [poll_next, handle_swaps_b1_to_b2_eq_ok, handle_swaps_b2_to_b1_eq_ok _ htodo,
    hc1, handle_blockchain_1, hdup]

/-- Closed instance of C1: the sample state already tracks id 1, and a second
`Initiated` event for it produces only the `AlreadyPresent` warning. -/
theorem pollNext_duplicate_initiated_already_present_witness :
    sampleState.active_swaps_b1_to_b2.already_executing
      sampleDetails.bridge_transfer_id = true ∧
    poll_next sampleState
      ⟨Poll.Pending, Poll.Pending,
       Poll.Ready (some (ContractEvent.InitiatorEvent
         (BridgeContractInitiatorEvent.Initiated sampleDetails))),
       Poll.Pending⟩ = Except.ok
      (Poll.Ready (some (Event.B1I (IEvent.Warn
        (IWarn.AlreadyPresent sampleDetails)))), sampleState, []) :=
  ⟨by decide,
   pollNext_duplicate_initiated_already_present sampleState _ sampleDetails
     (by decide) rfl (by decide)⟩

/-- C2: a chain-2 counterparty `Completed` event whose id is not tracked in
the A-to-B tracker makes `complete_bridge_transfer` fail with
`NonExistingSwap`, and `poll_next` returns exactly one
`CannotCompleteUnexistingSwap` critical warning carrying the event's details,
dispatches no contract call, leaves the state unchanged, and does not
crash. -/
theorem pollNext_completed_unexisting_swap
    (s : BridgeServiceState) (inp : TurnInputs)
    (d : CounterpartyCompletedDetails)
    (htodo : swaps_b2_to_b1_todo_free inp.swaps_b2_to_b1 = true)
    (hfall : blockchain_1_falls_through inp.blockchain_1 = true)
    (hc2 : inp.blockchain_2 = Poll.Ready (some (ContractEvent.CounterpartyEvent
      (BridgeContractCounterpartyEvent.Completed d))))
    (habs : s.active_swaps_b1_to_b2.already_executing d.bridge_transfer_id = false) :
    s.active_swaps_b1_to_b2.complete_bridge_transfer d =
      Except.error ActiveSwapMapError.NonExistingSwap ∧
    poll_next s inp = Except.ok
      (Poll.Ready (some (Event.B2C (CEvent.Warn
        (CWarn.CannotCompleteUnexistingSwap d)))), s, []) := by
  have hcomp : s.active_swaps_b1_to_b2.complete_bridge_transfer d =
      Except.error ActiveSwapMapError.NonExistingSwap := by
    simp [ActiveSwapMap.complete_bridge_transfer, habs]
  refine ⟨hcomp, ?_⟩
  simp [poll_next, handle_swaps_b1_to_b2_eq_ok, handle_swaps_b2_to_b1_eq_ok _ htodo,
    handle_blockchain_1_eq_none _ _ hfall, hc2, handle_blockchain_2, hcomp]

/-- Closed instance of C2: a `Completed` event for id 9 against the empty
registry yields the critical warning and no call. -/
theorem pollNext_completed_unexisting_swap_witness :
    emptyState.active_swaps_b1_to_b2.already_executing 9 = false ∧
    poll_next emptyState
      ⟨Poll.Pending, Poll.Pending, Poll.Pending,
       Poll.Ready (some (ContractEvent.CounterpartyEvent
         (BridgeContractCounterpartyEvent.Completed ⟨9, 77⟩)))⟩ = Except.ok
      (Poll.Ready (some (Event.B2C (CEvent.Warn
        (CWarn.CannotCompleteUnexistingSwap ⟨9, 77⟩)))), emptyState, []) :=
  ⟨by decide,
   (pollNext_completed_unexisting_swap emptyState _ ⟨9, 77⟩
     (by decide) (by decide) rfl (by decide)).2⟩

/-- C3: a chain-1 `Initiated` event whose id is not yet tracked registers the
swap with the A-to-B tracker via `start_bridge_transfer` (dispatching the
destination-chain lock call with the event's details) and returns the wrapped
initiator event; immediately afterwards `already_executing` reports the id as
tracked. -/
theorem pollNext_new_initiated_starts_transfer
    (s : BridgeServiceState) (inp : TurnInputs) (d : BridgeTransferDetails)
    (htodo : swaps_b2_to_b1_todo_free inp.swaps_b2_to_b1 = true)
    (hc1 : inp.blockchain_1 = Poll.Ready (some (ContractEvent.InitiatorEvent
      (BridgeContractInitiatorEvent.Initiated d))))
    (hnew : s.active_swaps_b1_to_b2.already_executing d.bridge_transfer_id = false) :
    poll_next s inp = Except.ok
      (Poll.Ready (some (Event.B1I (IEvent.ContractEvent
        (BridgeContractInitiatorEvent.Initiated d)))),
       { s with active_swaps_b1_to_b2 :=
         (s.active_swaps_b1_to_b2.start_bridge_transfer d).1 },
       [ContractCall.LockBridgeTransferAssets d]) ∧
    ((s.active_swaps_b1_to_b2.start_bridge_transfer d).1).already_executing
      d.bridge_transfer_id = true := by
  constructor
  · simp [poll_next, handle_swaps_b1_to_b2_eq_ok, handle_swaps_b2_to_b1_eq_ok _ htodo,
      hc1, handle_blockchain_1, hnew, ActiveSwapMap.start_bridge_transfer]
  · simp [ActiveSwapMap.start_bridge_transfer, ActiveSwapMap.already_executing]

/-- Closed instance of C3: an `Initiated` event for the sample swap against
the empty registry registers it, dispatches the lock call, and forwards the
event; the id is tracked afterwards. -/
theorem pollNext_new_initiated_starts_transfer_witness :
    emptyState.active_swaps_b1_to_b2.already_executing
      sampleDetails.bridge_transfer_id = false ∧
    poll_next emptyState
      ⟨Poll.Pending, Poll.Pending,
       Poll.Ready (some (ContractEvent.InitiatorEvent
         (BridgeContractInitiatorEvent.Initiated sampleDetails))),
       Poll.Pending⟩ = Except.ok
      (Poll.Ready (some (Event.B1I (IEvent.ContractEvent
        (BridgeContractInitiatorEvent.Initiated sampleDetails)))),
       ⟨⟨[⟨1, sampleDetails, SwapStatus.Locking⟩]⟩, ⟨[]⟩⟩,
       [ContractCall.LockBridgeTransferAssets sampleDetails]) ∧
    ((emptyState.active_swaps_b1_to_b2.start_bridge_transfer
      sampleDetails).1).already_executing sampleDetails.bridge_transfer_id = true := by
  have h := pollNext_new_initiated_starts_transfer emptyState
    ⟨Poll.Pending, Poll.Pending,
     Poll.Ready (some (ContractEvent.InitiatorEvent
       (BridgeContractInitiatorEvent.Initiated sampleDetails))),
     Poll.Pending⟩ sampleDetails (by decide) rfl (by decide)
  exact ⟨by decide, h.1, h.2⟩

/-- C4: a chain-2 counterparty `Completed` event whose id is tracked in the
A-to-B tracker triggers `complete_bridge_transfer`, which dispatches the
source-chain claim call carrying the revealed secret and removes the entry,
and `poll_next` forwards the `Completed` event downstream. -/
theorem pollNext_completed_tracked_completes_transfer
    (s : BridgeServiceState) (inp : TurnInputs)
    (d : CounterpartyCompletedDetails)
    (htodo : swaps_b2_to_b1_todo_free inp.swaps_b2_to_b1 = true)
    (hfall : blockchain_1_falls_through inp.blockchain_1 = true)
    (hc2 : inp.blockchain_2 = Poll.Ready (some (ContractEvent.CounterpartyEvent
      (BridgeContractCounterpartyEvent.Completed d))))
    (htracked : s.active_swaps_b1_to_b2.already_executing d.bridge_transfer_id = true) :
    poll_next s inp = Except.ok
      (Poll.Ready (some (Event.B2C (CEvent.ContractEvent
        (BridgeContractCounterpartyEvent.Completed d)))),
       { s with active_swaps_b1_to_b2 :=
         ⟨s.active_swaps_b1_to_b2.swaps.filter
           fun entry => entry.transfer_id != d.bridge_transfer_id⟩ },
       [ContractCall.CompleteBridgeTransfer d]) ∧
    (ActiveSwapMap.mk (s.active_swaps_b1_to_b2.swaps.filter
      fun entry => entry.transfer_id != d.bridge_transfer_id)).already_executing
      d.bridge_transfer_id = false := by
  constructor
  · simp [poll_next, handle_swaps_b1_to_b2_eq_ok, handle_swaps_b2_to_b1_eq_ok _ htodo,
      handle_blockchain_1_eq_none _ _ hfall, hc2, handle_blockchain_2,
      ActiveSwapMap.complete_bridge_transfer, htracked]
  · simp [ActiveSwapMap.already_executing, List.any_eq_true, List.mem_filter]

/-- Closed instance of C4: a `Completed` event for the tracked sample swap
dispatches the claim call with the secret and removes the entry. -/
theorem pollNext_completed_tracked_completes_transfer_witness :
    sampleState.active_swaps_b1_to_b2.already_executing 1 = true ∧
    poll_next sampleState
      ⟨Poll.Pending, Poll.Pending, Poll.Pending,
       Poll.Ready (some (ContractEvent.CounterpartyEvent
         (BridgeContractCounterpartyEvent.Completed ⟨1, 55⟩)))⟩ = Except.ok
      (Poll.Ready (some (Event.B2C (CEvent.ContractEvent
        (BridgeContractCounterpartyEvent.Completed ⟨1, 55⟩)))),
       emptyState, [ContractCall.CompleteBridgeTransfer ⟨1, 55⟩]) := by
  have h := pollNext_completed_tracked_completes_transfer sampleState
    ⟨Poll.Pending, Poll.Pending, Poll.Pending,
     Poll.Ready (some (ContractEvent.CounterpartyEvent
       (BridgeContractCounterpartyEvent.Completed ⟨1, 55⟩)))⟩ ⟨1, 55⟩
    (by decide) (by decide) rfl (by decide)
  refine ⟨by decide, ?_⟩
  have h1 := h.1
  simpa [sampleState, emptyState, sampleDetails] using h1

/-- C5: a chain-1 initiator `Refunded` event reaches the `todo!()` arm at
bridge_service.rs:190, so the turn panics (modelled as `Except.error`)
instead of being handled without crashing: `poll_next` evaluated at a
concrete `Refunded` event, every other source quiet. -/
theorem pollNext_refunded_panics :
    poll_next emptyState
      ⟨Poll.Pending, Poll.Pending,
       Poll.Ready (some (ContractEvent.InitiatorEvent
         (BridgeContractInitiatorEvent.Refunded 7))),
       Poll.Pending⟩ =
      Except.error "todo: blockchain 1 initiator Refunded" := rfl

/-- Counterexample to C6 as stated: at a concrete turn where the A-to-B
tracker yields `BridgeAssetsLockingError` (and, second conjunct,
`BridgeAssetsCompletingError`) and every other source is quiet, `poll_next`
returns `Pending` with no dispatched call — no warning event is emitted to
the downstream consumer. -/
theorem pollNext_tracker_error_no_output_counterexample :
    poll_next emptyState
      ⟨Poll.Ready (some (ActiveSwapEvent.BridgeAssetsLockingError 3)),
       Poll.Pending, Poll.Pending, Poll.Pending⟩ =
      Except.ok (Poll.Pending, emptyState, []) ∧
    poll_next emptyState
      ⟨Poll.Ready (some (ActiveSwapEvent.BridgeAssetsCompletingError 3)),
       Poll.Pending, Poll.Pending, Poll.Pending⟩ =
      Except.ok (Poll.Pending, emptyState, []) :=
  ⟨rfl, rfl⟩

/-- C6 amended: an `AssetsLockingError` or `AssetsCompletingError` event of
the A-to-B tracker is consumed without crashing, without mutating state and
without dispatching a call — the turn proceeds exactly as if the tracker had
reported nothing (the failure is only logged via `tracing::warn`, not
surfaced in the output sequence). -/
theorem pollNext_tracker_error_logged_only
    (s : BridgeServiceState) (e : Nat) (sw2 : Poll ActiveSwapEvent)
    (c1 c2 : Poll ContractEvent) :
    poll_next s ⟨Poll.Ready (some (ActiveSwapEvent.BridgeAssetsLockingError e)),
        sw2, c1, c2⟩ =
      poll_next s ⟨Poll.Pending, sw2, c1, c2⟩ ∧
    poll_next s ⟨Poll.Ready (some (ActiveSwapEvent.BridgeAssetsCompletingError e)),
        sw2, c1, c2⟩ =
      poll_next s ⟨Poll.Pending, sw2, c1, c2⟩ ∧
    poll_next s ⟨Poll.Ready (some (ActiveSwapEvent.BridgeAssetsLockingError e)),
        Poll.Pending, Poll.Pending, Poll.Pending⟩ =
      Except.ok (Poll.Pending, s, []) ∧
    poll_next s ⟨Poll.Ready (some (ActiveSwapEvent.BridgeAssetsCompletingError e)),
        Poll.Pending, Poll.Pending, Poll.Pending⟩ =
      Except.ok (Poll.Pending, s, []) := by
  refine ⟨?_, ?_, rfl, rfl⟩ <;>
    simp [poll_next, handle_swaps_b1_to_b2]

/-- C7: the four sources are examined in a fixed order and a source with
nothing ready never blocks the later ones.  Conjuncts: (1)-(4) a source
reporting `Pending` behaves exactly like one reporting exhaustion
(`Ready none`) — neither stops the turn; (5) an A-to-B tracker progress
event never ends the turn (the later sources are still examined); (6) when
chain 1 yields an initiator event the turn's outcome is independent of the
chain-2 source — the first source whose event requires output ends the turn,
and the result type returns at most one unified event. -/
theorem pollNext_turn_discipline :
    (∀ (s : BridgeServiceState) (sw2 : Poll ActiveSwapEvent)
       (c1 c2 : Poll ContractEvent),
       poll_next s ⟨Poll.Pending, sw2, c1, c2⟩ =
         poll_next s ⟨Poll.Ready none, sw2, c1, c2⟩) ∧
    (∀ (s : BridgeServiceState) (sw1 : Poll ActiveSwapEvent)
       (c1 c2 : Poll ContractEvent),
       poll_next s ⟨sw1, Poll.Pending, c1, c2⟩ =
         poll_next s ⟨sw1, Poll.Ready none, c1, c2⟩) ∧
    (∀ (s : BridgeServiceState) (sw1 sw2 : Poll ActiveSwapEvent)
       (c2 : Poll ContractEvent),
       poll_next s ⟨sw1, sw2, Poll.Pending, c2⟩ =
         poll_next s ⟨sw1, sw2, Poll.Ready none, c2⟩) ∧
    (∀ (s : BridgeServiceState) (sw1 sw2 : Poll ActiveSwapEvent)
       (c1 : Poll ContractEvent),
       poll_next s ⟨sw1, sw2, c1, Poll.Pending⟩ =
         poll_next s ⟨sw1, sw2, c1, Poll.Ready none⟩) ∧
    (∀ (s : BridgeServiceState) (e : ActiveSwapEvent)
       (sw2 : Poll ActiveSwapEvent) (c1 c2 : Poll ContractEvent),
       poll_next s ⟨Poll.Ready (some e), sw2, c1, c2⟩ =
         poll_next s ⟨Poll.Pending, sw2, c1, c2⟩) ∧
    (∀ (s : BridgeServiceState) (sw1 sw2 : Poll ActiveSwapEvent)
       (ie : BridgeContractInitiatorEvent) (c2 c2' : Poll ContractEvent),
       poll_next s ⟨sw1, sw2,
         Poll.Ready (some (ContractEvent.InitiatorEvent ie)), c2⟩ =
       poll_next s ⟨sw1, sw2,
         Poll.Ready (some (ContractEvent.InitiatorEvent ie)), c2'⟩) := by
  refine ⟨?_, ?_, ?_, ?_, ?_, ?_⟩
  · intro s sw2 c1 c2
    simp [poll_next, handle_swaps_b1_to_b2]
  · intro s sw1 c1 c2
    simp [poll_next, handle_swaps_b2_to_b1]
  · intro s sw1 sw2 c2
    simp [poll_next, handle_blockchain_1]
  · intro s sw1 sw2 c1
    simp [poll_next, handle_blockchain_2]
  · intro s e sw2 c1 c2
    cases e <;> simp [poll_next, handle_swaps_b1_to_b2]
  · intro s sw1 sw2 ie c2 c2'
    cases ie with
    | Initiated d =>
      by_cases hdup :
        s.active_swaps_b1_to_b2.already_executing d.bridge_transfer_id = true
      · simp [poll_next, handle_blockchain_1, hdup]
      · simp [poll_next, handle_blockchain_1, hdup,
          ActiveSwapMap.start_bridge_transfer]
    | Completed id => simp [poll_next, handle_blockchain_1]
    | Refunded id => simp [poll_next, handle_blockchain_1]

/-- Holds when the chain-2 poll result makes `poll_next` fall through to the
final `Pending`: anything but a counterparty event (initiator events on
chain 2 are traced only, bridge_service.rs:210-212). -/
def blockchain_2_falls_through (p : Poll ContractEvent) : Bool :=
  match p with
  | Poll.Ready (some (ContractEvent.CounterpartyEvent _)) => false
  | _ => true

/-- A chain-2 poll result that is not a counterparty event falls through. -/
lemma handle_blockchain_2_eq_none (s : BridgeServiceState)
    (p : Poll ContractEvent) (h : blockchain_2_falls_through p = true) :
    handle_blockchain_2 s p = Except.ok none := by
  cases p with
  | Ready item =>
    cases item with
    | none => rfl
    | some event =>
      cases event with
      | InitiatorEvent e => rfl
      | CounterpartyEvent e => simp [blockchain_2_falls_through] at h
  | Pending => rfl

/-- Counterexample to C8 as stated: a concrete turn on which none of the
four sources produces an output event (the B-to-A tracker yields
`BridgeAssetsCompleted`, which the source handles with `todo!()`), yet
`poll_next` does not return `Pending` — it panics. -/
theorem pollNext_todo_turn_counterexample :
    poll_next emptyState
      ⟨Poll.Pending,
       Poll.Ready (some (ActiveSwapEvent.BridgeAssetsCompleted 0)),
       Poll.Pending, Poll.Pending⟩ =
      Except.error "todo: B2 to B1 BridgeAssetsCompleted" := rfl

/-- C8 amended: `poll_next` never returns `Ready none` (the output sequence
never terminates on its own, also when the underlying sequences are
exhausted), and on every turn where neither chain source yields an
output-producing event and no `todo!()` placeholder arm is hit, it returns
`Pending` with unchanged state and no dispatched call. -/
theorem pollNext_never_terminates :
    (∀ (s : BridgeServiceState) (inp : TurnInputs)
       (st : BridgeServiceState) (calls : List ContractCall),
       poll_next s inp ≠ Except.ok (Poll.Ready none, st, calls)) ∧
    (∀ (s : BridgeServiceState) (inp : TurnInputs),
       swaps_b2_to_b1_todo_free inp.swaps_b2_to_b1 = true →
       blockchain_1_falls_through inp.blockchain_1 = true →
       blockchain_2_falls_through inp.blockchain_2 = true →
       poll_next s inp = Except.ok (Poll.Pending, s, [])) := by
  constructor
  · intro s inp st calls h
    cases h1 : handle_swaps_b1_to_b2 inp.swaps_b1_to_b2 with
    | error e => simp [poll_next, h1] at h
    | ok u =>
      cases u
      cases h2 : handle_swaps_b2_to_b1 inp.swaps_b2_to_b1 with
      | error e => simp [poll_next, h1, h2] at h
      | ok u2 =>
        cases u2
        cases h3 : handle_blockchain_1 s inp.blockchain_1 with
        | error e => simp [poll_next, h1, h2, h3] at h
        | ok o =>
          cases o with
          | some trip =>
            obtain ⟨ev, s1, cs⟩ := trip
            simp [poll_next, h1, h2, h3] at h
          | none =>
            cases h4 : handle_blockchain_2 s inp.blockchain_2 with
            | error e => simp [poll_next, h1, h2, h3, h4] at h
            | ok o2 =>
              cases o2 with
              | some trip2 =>
                obtain ⟨ev, s2, cs⟩ := trip2
                simp [poll_next, h1, h2, h3, h4] at h
              | none => simp [poll_next, h1, h2, h3, h4] at h
  · intro s inp htodo h1 h2
    simp [poll_next, handle_swaps_b1_to_b2_eq_ok,
      handle_swaps_b2_to_b1_eq_ok _ htodo,
      handle_blockchain_1_eq_none _ _ h1, handle_blockchain_2_eq_none _ _ h2]

/-- Closed instance of C8 amended: with all four sequences exhausted
(`Ready none`) the turn reports `Pending`, and it does not report
`Ready none`. -/
theorem pollNext_never_terminates_witness :
    poll_next emptyState
      ⟨Poll.Ready none, Poll.Ready none, Poll.Ready none, Poll.Ready none⟩ =
      Except.ok (Poll.Pending, emptyState, []) ∧
    poll_next emptyState
      ⟨Poll.Ready none, Poll.Ready none, Poll.Ready none, Poll.Ready none⟩ ≠
      Except.ok (Poll.Ready none, emptyState, []) :=
  ⟨pollNext_never_terminates.2 emptyState _ (by decide) (by decide) (by decide),
   pollNext_never_terminates.1 emptyState _ emptyState []⟩

/-- C9: purely observational events are forwarded as-is with no tracker call
and no registry mutation — a chain-1 initiator `Completed` event is returned
as `B1I (ContractEvent (Completed ..))` and a chain-2 counterparty `Locked`
event as `B2C (ContractEvent (Locked ..))`, each with unchanged state and an
empty list of dispatched calls (so a tracked swap's entry stays in the
A-to-B registry). -/
theorem pollNext_observational_events_forwarded :
    (∀ (s : BridgeServiceState) (inp : TurnInputs) (id : Nat),
       swaps_b2_to_b1_todo_free inp.swaps_b2_to_b1 = true →
       inp.blockchain_1 = Poll.Ready (some (ContractEvent.InitiatorEvent
         (BridgeContractInitiatorEvent.Completed id))) →
       poll_next s inp = Except.ok
         (Poll.Ready (some (Event.B1I (IEvent.ContractEvent
           (BridgeContractInitiatorEvent.Completed id)))), s, [])) ∧
    (∀ (s : BridgeServiceState) (inp : TurnInputs) (d : LockedDetails),
       swaps_b2_to_b1_todo_free inp.swaps_b2_to_b1 = true →
       blockchain_1_falls_through inp.blockchain_1 = true →
       inp.blockchain_2 = Poll.Ready (some (ContractEvent.CounterpartyEvent
         (BridgeContractCounterpartyEvent.Locked d))) →
       poll_next s inp = Except.ok
         (Poll.Ready (some (Event.B2C (CEvent.ContractEvent
           (BridgeContractCounterpartyEvent.Locked d)))), s, [])) := by
  constructor
  · intro s inp id htodo hc1
    simp [poll_next, handle_swaps_b1_to_b2_eq_ok,
      handle_swaps_b2_to_b1_eq_ok _ htodo, hc1, handle_blockchain_1]
  · intro s inp d htodo hfall hc2
    simp [poll_next, handle_swaps_b1_to_b2_eq_ok,
      handle_swaps_b2_to_b1_eq_ok _ htodo,
      handle_blockchain_1_eq_none _ _ hfall, hc2, handle_blockchain_2]

/-- Closed instance of C9: against the sample state that tracks swap 1, a
chain-1 `Completed` event and a chain-2 `Locked` event are each forwarded
with the registry left unchanged (the entry for id 1 remains). -/
theorem pollNext_observational_events_forwarded_witness :
    poll_next sampleState
      ⟨Poll.Pending, Poll.Pending,
       Poll.Ready (some (ContractEvent.InitiatorEvent
         (BridgeContractInitiatorEvent.Completed 1))),
       Poll.Pending⟩ = Except.ok
      (Poll.Ready (some (Event.B1I (IEvent.ContractEvent
        (BridgeContractInitiatorEvent.Completed 1)))), sampleState, []) ∧
    poll_next sampleState
      ⟨Poll.Pending, Poll.Pending, Poll.Pending,
       Poll.Ready (some (ContractEvent.CounterpartyEvent
         (BridgeContractCounterpartyEvent.Locked ⟨1, 100⟩)))⟩ = Except.ok
      (Poll.Ready (some (Event.B2C (CEvent.ContractEvent
        (BridgeContractCounterpartyEvent.Locked ⟨1, 100⟩)))), sampleState, []) ∧
    sampleState.active_swaps_b1_to_b2.already_executing 1 = true :=
  ⟨pollNext_observational_events_forwarded.1 sampleState _ 1 (by decide) rfl,
   pollNext_observational_events_forwarded.2 sampleState _ ⟨1, 100⟩
     (by decide) (by decide) rfl,
   by decide⟩

/-- A chain-1 turn output never touches the B-to-A registry. -/
lemma handle_blockchain_1_preserves_b2_to_b1 (s : BridgeServiceState)
    (p : Poll ContractEvent) (ev : Event) (s1 : BridgeServiceState)
    (calls : List ContractCall)
    (h : handle_blockchain_1 s p = Except.ok (some (ev, s1, calls))) :
    s1.active_swaps_b2_to_b1 = s.active_swaps_b2_to_b1 := by
  cases p with
  | Pending => simp [handle_blockchain_1] at h
  | Ready item =>
    cases item with
    | none => simp [handle_blockchain_1] at h
    | some event =>
      cases event with
      | CounterpartyEvent e => simp [handle_blockchain_1] at h
      | InitiatorEvent ie =>
        cases ie with
        | Initiated d =>
          by_cases hdup :
            s.active_swaps_b1_to_b2.already_executing d.bridge_transfer_id = true
          · simp [handle_blockchain_1, hdup] at h
            obtain ⟨-, h2, -⟩ := h
            subst h2
            rfl
          · simp [handle_blockchain_1, hdup,
              ActiveSwapMap.start_bridge_transfer] at h
            obtain ⟨-, h2, -⟩ := h
            subst h2
            rfl
        | Completed id =>
          simp [handle_blockchain_1] at h
          obtain ⟨-, h2, -⟩ := h
          subst h2
          rfl
        | Refunded id => simp [handle_blockchain_1] at h

/-- A chain-2 turn output never touches the B-to-A registry. -/
lemma handle_blockchain_2_preserves_b2_to_b1 (s : BridgeServiceState)
    (p : Poll ContractEvent) (ev : Event) (s2 : BridgeServiceState)
    (calls : List ContractCall)
    (h : handle_blockchain_2 s p = Except.ok (some (ev, s2, calls))) :
    s2.active_swaps_b2_to_b1 = s.active_swaps_b2_to_b1 := by
  cases p with
  | Pending => simp [handle_blockchain_2] at h
  | Ready item =>
    cases item with
    | none => simp [handle_blockchain_2] at h
    | some event =>
      cases event with
      | InitiatorEvent e => simp [handle_blockchain_2] at h
      | CounterpartyEvent ce =>
        cases ce with
        | Locked d =>
          simp [handle_blockchain_2] at h
          obtain ⟨-, h2, -⟩ := h
          subst h2
          rfl
        | Completed d =>
          cases hc : s.active_swaps_b1_to_b2.complete_bridge_transfer d with
          | ok pair =>
            obtain ⟨m, cs⟩ := pair
            simp [handle_blockchain_2, hc] at h
            obtain ⟨-, h2, -⟩ := h
            subst h2
            rfl
          | error err =>
            cases err
            simp [handle_blockchain_2, hc] at h
            obtain ⟨-, h2, -⟩ := h
            subst h2
            rfl

/-- C10: no execution path of `poll_next` mutates the B-to-A tracker
(`active_swaps_b2_to_b1`): whatever the four sources report, the B-to-A
registry after the turn equals the one before, so no swap is ever registered
or completed in that direction by the orchestrator. -/
theorem pollNext_preserves_b2_to_b1_registry
    (s : BridgeServiceState) (inp : TurnInputs) (r : TurnResult)
    (h : poll_next s inp = Except.ok r) :
    r.2.1.active_swaps_b2_to_b1 = s.active_swaps_b2_to_b1 := by
  cases h1 : handle_swaps_b1_to_b2 inp.swaps_b1_to_b2 with
  | error e => simp [poll_next, h1] at h
  | ok u =>
    cases u
    cases h2 : handle_swaps_b2_to_b1 inp.swaps_b2_to_b1 with
    | error e => simp [poll_next, h1, h2] at h
    | ok u2 =>
      cases u2
      cases h3 : handle_blockchain_1 s inp.blockchain_1 with
      | error e => simp [poll_next, h1, h2, h3] at h
      | ok o =>
        cases o with
        | some trip =>
          obtain ⟨ev, s1, calls⟩ := trip
          simp only [poll_next, h1, h2, h3, Except.ok.injEq] at h
          rw [← h]
          exact handle_blockchain_1_preserves_b2_to_b1 s _ ev s1 calls h3
        | none =>
          cases h4 : handle_blockchain_2 s inp.blockchain_2 with
          | error e => simp [poll_next, h1, h2, h3, h4] at h
          | ok o2 =>
            cases o2 with
            | some trip =>
              obtain ⟨ev, s2, calls⟩ := trip
              simp only [poll_next, h1, h2, h3, h4, Except.ok.injEq] at h
              rw [← h]
              exact handle_blockchain_2_preserves_b2_to_b1 s _ ev s2 calls h4
            | none =>
              simp only [poll_next, h1, h2, h3, h4, Except.ok.injEq] at h
              rw [← h]

/-- Closed instance of C10: the turn that registers a new A-to-B swap leaves
the B-to-A registry untouched. -/
theorem pollNext_preserves_b2_to_b1_registry_witness :
    (Poll.Ready (some (Event.B1I (IEvent.ContractEvent
        (BridgeContractInitiatorEvent.Initiated sampleDetails)))),
      (⟨⟨[⟨1, sampleDetails, SwapStatus.Locking⟩]⟩, ⟨[]⟩⟩ : BridgeServiceState),
      [ContractCall.LockBridgeTransferAssets sampleDetails]).2.1.active_swaps_b2_to_b1 =
      emptyState.active_swaps_b2_to_b1 :=
  pollNext_preserves_b2_to_b1_registry emptyState
    ⟨Poll.Pending, Poll.Pending,
     Poll.Ready (some (ContractEvent.InitiatorEvent
       (BridgeContractInitiatorEvent.Initiated sampleDetails))),
     Poll.Pending⟩ _ rfl

end Bridge
